import Mathlib

/-!
# Verification of the PDF transaction extractor pipeline

Shallow embedding of `src/converter/pdf_to_json_converter.py`.

The program is a sequential pipeline: open a PDF and collect the text of
each page (`extract_text_from_pdf`), send each page text to a remote
chat-completion endpoint and parse the completion as JSON
(`extract_transactions_from_text`), accumulate the per-page results with
`list.extend`, and write the aggregate to a JSON file (`process_pdf`).
A CLI front end (`main`) checks the PDF path's existence, resolves the
API key from `--api-key` or the `GROQ_API_KEY` environment variable, and
maps the pipeline's boolean result to an exit code.

The embedding models:
* parsed JSON values (`Json`) — the result of Python's `json.loads`;
* Python iteration semantics of `list.extend` (`pyIterate`, `pyExtend`):
  extending by a list appends its elements, by a dict appends its keys,
  by a string appends its one-character substrings, and extending by a
  non-iterable value raises `TypeError`;
* the PDF file as the per-page raw extraction results plus an optional
  failure point (`PdfFile`) — `pdfplumber` may raise at any point of the
  iteration, which the source catches and converts to an empty list;
* the remote endpoint as a deterministic response function from the
  request the code builds (`Request`) to an abstract outcome
  (`ClientResponse`): transport error, or a reply with a status code and
  the outcome of extracting and JSON-parsing the completion content;
* the observable behaviour of a run as an event trace (`Event`), a file
  effect (`FileEffect`) and a return value, where the return value
  `none` models an uncaught Python exception.
-/

namespace PdfToJson

/-- A parsed JSON value, the result of Python's `json.loads`.  Numbers are
modelled as integers; no claim computes with fractional amounts. -/
inductive Json where
  | null : Json
  | bool : Bool → Json
  | num : Int → Json
  | str : String → Json
  | arr : List Json → Json
  | obj : List (String × Json) → Json

/-- Python iteration over a value, as used by `list.extend`: a list yields
its elements, a dict yields its keys (insertion order), a string yields its
one-character substrings, and other values are not iterable (`TypeError`,
modelled by `none`). -/
def pyIterate : Json → Option (List Json)
  | .arr xs => some xs
  | .obj fields => some (fields.map fun kv => .str kv.1)
  | .str s => some (s.toList.map fun c => .str (String.mk [c]))
  | _ => none

/-- `acc.extend(v)` in Python: appends the iteration of `v` to `acc`, or
raises `TypeError` (`none`) when `v` is not iterable. -/
def pyExtend (acc : List Json) (v : Json) : Option (List Json) :=
  (pyIterate v).map fun items => acc ++ items

/-- The elements of a JSON array, and `[]` on any other value. -/
def arrElems : Json → List Json
  | .arr xs => xs
  | _ => []

/-- Exactly the three documented transaction fields: `date` a string,
`details` a string, `amount` a number, and no other fields. -/
def isTxnRecord : Json → Bool
  | .obj fields =>
      fields.length == 3
        && (match fields.lookup "date" with | some (.str _) => true | _ => false)
        && (match fields.lookup "details" with | some (.str _) => true | _ => false)
        && (match fields.lookup "amount" with | some (.num _) => true | _ => false)
  | _ => false

/-- Configuration held by `TransactionProcessor`: the API key and model
name (`__init__`). -/
structure Config where
  apiKey : String
  model : String

/-- `self.rate_limit_delay = 8` — seconds between API calls. -/
def rateLimitDelay : Nat := 8

/-- The user prompt built by `extract_transactions_from_text` from one
page's text chunk (the Python f-string, with its indentation). -/
def buildPrompt (textChunk : String) : String :=
  "\n        Extract all bank transactions from the following text.\n        Output JSON array only.\n        Each object must have: date (dd-mm-yyyy), details, amount (negative for debits, positive for credits).\n        Ignore balance values. Skip headers.\n\n        Text:\n        " ++ textChunk ++ "\n        "

/-- The HTTP request `extract_transactions_from_text` posts to the
chat-completion endpoint: bearer key, model, fixed system message, the
user prompt, temperature 0. -/
structure Request where
  apiKey : String
  model : String
  systemMsg : String
  userPrompt : String
  temperature : Nat

/-- The request built for one text chunk. -/
def mkRequest (cfg : Config) (textChunk : String) : Request :=
  { apiKey := cfg.apiKey
  , model := cfg.model
  , systemMsg := "You are a precise financial data extraction assistant."
  , userPrompt := buildPrompt textChunk
  , temperature := 0 }

/-- Outcome of extracting and parsing the completion content of a reply:
the response body is malformed (`response.json()` or the
`choices[0].message.content` lookup raises), the content fails
`json.loads`, or it parses to a JSON value. -/
inductive ContentParse where
  | malformedBody : ContentParse
  | notJson : ContentParse
  | parsed : Json → ContentParse

/-- Outcome of one `requests.post`: a transport/network error (raises), or
a reply with an HTTP status code and an abstract content outcome. -/
inductive ClientResponse where
  | transportError : ClientResponse
  | reply : Nat → ContentParse → ClientResponse

/-- Result of one invocation of `extract_transactions_from_text`: how many
HTTP requests it issued, and the value it returned (failure paths return
the empty list, i.e. `Json.arr []`). -/
structure ClientCall where
  requests : Nat
  result : Json

/-- `extract_transactions_from_text`: builds the request for the chunk,
posts it once, and on status 200 returns `json.loads` of the completion
content; every failure (transport error, non-200 status, malformed body,
unparseable content) is caught or branched to an empty-list return. -/
def extract_transactions_from_text (cfg : Config)
    (responder : Request → ClientResponse) (textChunk : String) : ClientCall :=
  { requests := 1
  , result :=
      match responder (mkRequest cfg textChunk) with
      | .transportError => .arr []
      | .reply status content =>
          if status = 200 then
            match content with
            | .parsed v => v
            | _ => .arr []
          else .arr [] }

/-- The JSON value one page's client call contributes to the pipeline. -/
def pageResult (cfg : Config) (responder : Request → ClientResponse)
    (textChunk : String) : Json :=
  (extract_transactions_from_text cfg responder textChunk).result

/-- A PDF file as seen through `pdfplumber`: the raw `extract_text` result
of each page (`none` when no text is detectable), plus an optional failure
point — `failAfter = some k` means opening/parsing raises an exception
after `k` pages have been iterated (`some 0`: the open itself fails). -/
structure PdfFile where
  pages : List (Option String)
  failAfter : Option Nat

/-- The loop body of `extract_text_from_pdf`: iterate the pages, keeping
each truthy text (non-`None`, non-empty); when the failure point is
reached the exception is caught and the accumulator discarded — the
function returns the empty list. -/
def extractGo : List (Option String) → Option Nat → List String → List String
  | _, some 0, _ => []
  | [], _, acc => acc
  | p :: rest, fuel, acc =>
      extractGo rest (fuel.map fun n => n - 1)
        (match p with
         | none => acc
         | some t => if t = "" then acc else acc ++ [t])

/-- `extract_text_from_pdf`: all truthy page texts in page order, or the
empty list when opening/parsing raises anywhere. -/
def extract_text_from_pdf (pdf : PdfFile) : List String :=
  extractGo pdf.pages pdf.failAfter []

/-- Keep a page's raw text when it is truthy (non-`None`, non-empty). -/
def keepPage : Option String → Option String
  | none => none
  | some t => if t = "" then none else some t

/-- Whether a page's raw text is truthy (non-`None`, non-empty). -/
def nonEmptyText : Option String → Bool
  | none => false
  | some t => if t = "" then false else true

/-- Observable actions of a run, in order: the `pdf_path.exists()` check,
the `os.getenv` read of `GROQ_API_KEY`, opening the PDF, one HTTP POST
per page (indexed by page position), one sleep (with its duration in
seconds), and the attempt to open-and-write the output file. -/
inductive Event where
  | checkPdfExists : Event
  | readEnvKey : Event
  | pdfOpen : Event
  | apiCall : Nat → Event
  | sleep : Nat → Event
  | fileWrite : Event
deriving DecidableEq

/-- Effect of a run on the output file: never touched, fully written with
the serialized transaction list, or opened but not successfully written. -/
inductive FileEffect where
  | untouched : FileEffect
  | wroteFull : List Json → FileEffect
  | failedWrite : FileEffect

/-- Observable outcome of `process_pdf` (and of `main`): the event trace,
the effect on the output file, and the returned boolean — `none` models an
uncaught Python exception escaping the function. -/
structure RunResult where
  trace : List Event
  effect : FileEffect
  retval : Option Bool

/-- The page loop of `process_pdf`: for the `i`-th page text, call the
client, `extend` the accumulator by the result, then sleep for the rate
limit — in that order.  When the result is not iterable, `extend` raises
`TypeError`, uncaught: the loop aborts after the call and before that
page's sleep (`none`). -/
def runPages (cfg : Config) (responder : Request → ClientResponse) :
    List String → Nat → List Json → List Event × Option (List Json)
  | [], _, acc => ([], some acc)
  | t :: rest, i, acc =>
      match pyExtend acc (pageResult cfg responder t) with
      | none => ([.apiCall i], none)
      | some acc' =>
          let next := runPages cfg responder rest (i + 1) acc'
          (.apiCall i :: .sleep rateLimitDelay :: next.1, next.2)

/-- `process_pdf`: extract the page texts (opening the PDF); fail when
none; run the page loop; fail when the accumulated collection is empty;
otherwise write the collection to the output file (`writeOk` models
whether the file I/O succeeds). -/
def process_pdf (cfg : Config) (responder : Request → ClientResponse)
    (pdf : PdfFile) (writeOk : Bool) : RunResult :=
  let pagesText := extract_text_from_pdf pdf
  if pagesText.isEmpty then
    { trace := [.pdfOpen], effect := .untouched, retval := some false }
  else
    match runPages cfg responder pagesText 0 [] with
    | (tr, none) =>
        { trace := .pdfOpen :: tr, effect := .untouched, retval := none }
    | (tr, some txs) =>
        if txs.isEmpty then
          { trace := .pdfOpen :: tr, effect := .untouched, retval := some false }
        else if writeOk then
          { trace := .pdfOpen :: tr ++ [.fileWrite]
          , effect := .wroteFull txs, retval := some true }
        else
          { trace := .pdfOpen :: tr ++ [.fileWrite]
          , effect := .failedWrite, retval := some false }

/-- Python truthiness of an optional string: `None` and the empty string
are falsy. -/
def truthy : Option String → Bool
  | none => false
  | some s => if s = "" then false else true

/-- Exit code from `process_pdf`'s outcome: `0 if success else 1`; an
uncaught exception makes the interpreter exit with code 1. -/
def exitOf : Option Bool → Nat
  | some true => 0
  | _ => 1

/-- Result of `main`: the process exit code and the event trace. -/
structure MainResult where
  exitCode : Nat
  trace : List Event

/-- `main`: parse arguments, check `pdf_path.exists()` (exit 1 when
missing), resolve the API key from `--api-key` then `GROQ_API_KEY`
(exit 1 when both are falsy), and run `process_pdf`.  `pdfExists` models
the filesystem's answer to the existence check; `apiKeyArg` and `envKey`
the optional CLI argument and environment variable. -/
def main (apiKeyArg envKey : Option String) (pdfExists : Bool)
    (modelArg : String) (pdf : PdfFile)
    (responder : Request → ClientResponse) (writeOk : Bool) : MainResult :=
  if !pdfExists then
    { exitCode := 1, trace := [.checkPdfExists] }
  else if truthy apiKeyArg then
    let run := process_pdf { apiKey := apiKeyArg.getD "", model := modelArg }
      responder pdf writeOk
    { exitCode := exitOf run.retval, trace := .checkPdfExists :: run.trace }
  else if truthy envKey then
    let run := process_pdf { apiKey := envKey.getD "", model := modelArg }
      responder pdf writeOk
    { exitCode := exitOf run.retval
    , trace := .checkPdfExists :: .readEnvKey :: run.trace }
  else
    { exitCode := 1, trace := [.checkPdfExists, .readEnvKey] }

/-- The per-call trace of the page loop over `n` pages starting at index
`i`: one API call followed by one rate-limit sleep, per page. -/
def callTrace : Nat → Nat → List Event
  | _, 0 => []
  | i, n + 1 => .apiCall i :: .sleep rateLimitDelay :: callTrace (i + 1) n

/-- Number of sleep events in a trace. -/
def countSleeps (tr : List Event) : Nat :=
  tr.countP fun e => match e with | .sleep _ => true | _ => false

/-- The API-call and sleep events of a trace, in order. -/
def callsAndSleeps (tr : List Event) : List Event :=
  tr.filter fun e =>
    match e with | .apiCall _ => true | .sleep _ => true | _ => false

/-- The collection accumulated by the page loop when every page's client
result is iterable: the concatenation, in page order, of each page's
iteration. -/
def pagesJoin (cfg : Config) (responder : Request → ClientResponse)
    (pages : List String) : List Json :=
  (pages.map fun t => (pyIterate (pageResult cfg responder t)).getD []).flatten

/-- A one-page PDF with detectable text and no parse failure. -/
def samplePdf : PdfFile := { pages := [some "page one text"], failAfter := none }

/-- A responder whose every request fails at the transport layer. -/
def sampleResponder : Request → ClientResponse := fun _ => .transportError

/-- A well-formed transaction record, as in the spec's two-page scenario. -/
def sampleTxn : Json :=
  .obj [("date", .str "01-01-2024"), ("details", .str "Coffee"), ("amount", .num (-3))]

/-- A responder answering every request with status 200 and a singleton
array of one well-formed transaction record. -/
def goodResponder : Request → ClientResponse :=
  fun _ => .reply 200 (.parsed (.arr [sampleTxn]))

/-- A concrete processor configuration. -/
def sampleCfg : Config := { apiKey := "key", model := "llama3-70b-8192" }

/-- A PDF with mixed pages: truthy text, no detectable text, empty text,
truthy text. -/
def pdfMixed : PdfFile :=
  { pages := [some "a", none, some "", some "b"], failAfter := none }

/-- A two-page PDF whose parse raises after the first page was iterated. -/
def pdfFailing : PdfFile :=
  { pages := [some "a", some "b"], failAfter := some 1 }

/-- A responder answering every request with status 200 and an empty JSON
array as content. -/
def emptyResponder : Request → ClientResponse :=
  fun _ => .reply 200 (.parsed (.arr []))

/-- A responder answering every request with status 200 and, as content, a
JSON array holding one object that lacks the documented fields. -/
def badFieldResponder : Request → ClientResponse :=
  fun _ => .reply 200 (.parsed (.arr [.obj [("foo", .num 1)]]))

/-- A responder answering every request with status 200 and a bare JSON
number as content — valid JSON, but not iterable by `list.extend`. -/
def scalarResponder : Request → ClientResponse :=
  fun _ => .reply 200 (.parsed (.num 5))

/-- A responder answering every request with status 200 and a JSON object
(not an array) as content. -/
def objResponder : Request → ClientResponse :=
  fun _ => .reply 200 (.parsed (.obj [("a", .num 1), ("b", .num 2)]))

/-- Whether a client response is one of the failure cases: transport
error, malformed body, unparseable content, or a non-200 status. -/
def isFailureResp : ClientResponse → Bool
  | .transportError => true
  | .reply _ .malformedBody => true
  | .reply _ .notJson => true
  | .reply s (.parsed _) => if s = 200 then false else true

/-! ## Support lemmas -/

/-- Without a failure point, the extraction loop appends exactly the kept
pages. -/
theorem extractGo_none (pages : List (Option String)) (acc : List String) :
    extractGo pages none acc = acc ++ pages.filterMap keepPage := by
  induction pages generalizing acc with
  | nil => simp [extractGo]
  | cons p rest ih =>
      cases p with
      | none => simp [extractGo, keepPage, ih]
      | some t =>
          by_cases h : t = "" <;> simp [extractGo, keepPage, h, ih]

/-- When the failure point lies within the iteration (or at its end, e.g.
a close failure), the extraction loop returns the empty list, discarding
everything accumulated. -/
theorem extractGo_fail (pages : List (Option String)) (k : Nat)
    (acc : List String) (h : k ≤ pages.length) :
    extractGo pages (some k) acc = [] := by
  induction pages generalizing k acc with
  | nil =>
      have hk : k = 0 := Nat.le_zero.mp h
      subst hk
      simp [extractGo]
  | cons p rest ih =>
      cases k with
      | zero => simp [extractGo]
      | succ k =>
          have h' : k ≤ rest.length := Nat.succ_le_succ_iff.mp (by simpa using h)
          cases p with
          | none => simpa [extractGo] using ih k _ h'
          | some t =>
              by_cases ht : t = "" <;> simpa [extractGo, ht] using ih k _ h'

/-- The kept pages are exactly as many as the pages with truthy text. -/
theorem length_filterMap_keepPage (pages : List (Option String)) :
    (pages.filterMap keepPage).length = pages.countP nonEmptyText := by
  induction pages with
  | nil => simp
  | cons p rest ih =>
      cases p with
      | none => simp [keepPage, nonEmptyText, List.countP_cons, ih]
      | some t =>
          by_cases h : t = "" <;>
            simp [keepPage, nonEmptyText, h, List.countP_cons, ih]

/-- When every page's client result is iterable, the page loop emits one
API call and one rate-limit sleep per page and accumulates the
concatenation of the per-page iterations. -/
theorem runPages_ok (cfg : Config) (responder : Request → ClientResponse)
    (pages : List String) (i : Nat) (acc : List Json)
    (h : ∀ t ∈ pages, (pyIterate (pageResult cfg responder t)).isSome = true) :
    runPages cfg responder pages i acc =
      (callTrace i pages.length, some (acc ++ pagesJoin cfg responder pages)) := by
  induction pages generalizing i acc with
  | nil => simp [runPages, pagesJoin, callTrace]
  | cons t rest ih =>
      have ht : (pyIterate (pageResult cfg responder t)).isSome = true :=
        h t (by simp)
      obtain ⟨items, hit⟩ := Option.isSome_iff_exists.mp ht
      have hrest : ∀ u ∈ rest, (pyIterate (pageResult cfg responder u)).isSome = true :=
        fun u hu => h u (by simp [hu])
      simp [runPages, pyExtend, hit, ih (i + 1) (acc ++ items) hrest,
        pagesJoin, callTrace]

/-- The per-page trace contains exactly one sleep per page. -/
theorem countSleeps_callTrace (i n : Nat) : countSleeps (callTrace i n) = n := by
  induction n generalizing i with
  | zero => simp [callTrace, countSleeps]
  | succ n ih =>
      simpa [callTrace, countSleeps, List.countP_cons] using ih (i + 1)

/-- The per-page trace consists only of API calls and sleeps. -/
theorem callsAndSleeps_callTrace (i n : Nat) :
    callsAndSleeps (callTrace i n) = callTrace i n := by
  induction n generalizing i with
  | zero => simp [callTrace, callsAndSleeps]
  | succ n ih =>
      simpa [callTrace, callsAndSleeps, List.filter] using ih (i + 1)

/-- Every sleep in the per-page trace has the fixed rate-limit duration. -/
theorem sleep_mem_callTrace (i n s : Nat)
    (h : Event.sleep s ∈ callTrace i n) : s = rateLimitDelay := by
  induction n generalizing i with
  | zero => simp [callTrace] at h
  | succ n ih =>
      simp only [callTrace, List.mem_cons] at h
      rcases h with h | h | h
      · exact absurd h (by simp)
      · exact (Event.sleep.injEq _ _).mp h
      · exact ih (i + 1) h

/-- Evaluation of `process_pdf` when every page's client result is
iterable: no uncaught exception occurs, and the run branches only on
whether any page text was extracted, whether the accumulated collection
is empty, and whether the file write succeeds. -/
theorem process_pdf_eq (cfg : Config) (responder : Request → ClientResponse)
    (pdf : PdfFile) (writeOk : Bool)
    (h : ∀ t ∈ extract_text_from_pdf pdf,
      (pyIterate (pageResult cfg responder t)).isSome = true) :
    process_pdf cfg responder pdf writeOk =
      (if (extract_text_from_pdf pdf).isEmpty then
        { trace := [.pdfOpen], effect := .untouched, retval := some false }
      else if (pagesJoin cfg responder (extract_text_from_pdf pdf)).isEmpty then
        { trace := .pdfOpen :: callTrace 0 (extract_text_from_pdf pdf).length
        , effect := .untouched, retval := some false }
      else if writeOk then
        { trace := .pdfOpen :: callTrace 0 (extract_text_from_pdf pdf).length ++ [.fileWrite]
        , effect := .wroteFull (pagesJoin cfg responder (extract_text_from_pdf pdf))
        , retval := some true }
      else
        { trace := .pdfOpen :: callTrace 0 (extract_text_from_pdf pdf).length ++ [.fileWrite]
        , effect := .failedWrite, retval := some false }) := by
  have hr := runPages_ok cfg responder (extract_text_from_pdf pdf) 0 [] h
  by_cases he : (extract_text_from_pdf pdf).isEmpty
  · simp [process_pdf, he]
  · simp [process_pdf, he, hr]

/-! ## Claims -/

/-- C4: for every PDF that opens and parses without error,
`extract_text_from_pdf` returns the truthy page texts themselves in page
order (silently omitting pages with empty or undetectable text), so its
output length equals the number of pages with non-empty raw text and is
at most the page count. -/
theorem C4_extract_pages (pdf : PdfFile) (h : pdf.failAfter = none) :
    extract_text_from_pdf pdf = pdf.pages.filterMap keepPage
      ∧ (extract_text_from_pdf pdf).length = pdf.pages.countP nonEmptyText
      ∧ (extract_text_from_pdf pdf).length ≤ pdf.pages.length := by
  have h1 : extract_text_from_pdf pdf = pdf.pages.filterMap keepPage := by
    simp [extract_text_from_pdf, h, extractGo_none]
  refine ⟨h1, ?_, ?_⟩
  · rw [h1, length_filterMap_keepPage]
  · rw [h1, length_filterMap_keepPage]
    exact List.countP_le_length _

/-- Witness for C4 on a four-page PDF with one undetectable and one empty
page. -/
theorem C4_extract_pages_witness :
    pdfMixed.failAfter = none
      ∧ (extract_text_from_pdf pdfMixed = pdfMixed.pages.filterMap keepPage
        ∧ (extract_text_from_pdf pdfMixed).length = pdfMixed.pages.countP nonEmptyText
        ∧ (extract_text_from_pdf pdfMixed).length ≤ pdfMixed.pages.length) :=
  ⟨rfl, C4_extract_pages pdfMixed rfl⟩

/-- C8: when opening or parsing the PDF raises anywhere — also after some
pages have already been extracted — `extract_text_from_pdf` returns the
empty list (the partial accumulation is discarded) and propagates nothing:
it is a total function into `List String`. -/
theorem C8_fail_soft (pdf : PdfFile) (k : Nat) (h1 : pdf.failAfter = some k)
    (h2 : k ≤ pdf.pages.length) : extract_text_from_pdf pdf = [] := by
  simp [extract_text_from_pdf, h1, extractGo_fail _ _ _ h2]

/-- Witness for C8: a parse failure after one of two pages was already
extracted still yields the empty list. -/
theorem C8_fail_soft_witness :
    pdfFailing.failAfter = some 1 ∧ 1 ≤ pdfFailing.pages.length
      ∧ extract_text_from_pdf pdfFailing = [] :=
  ⟨rfl, by decide, C8_fail_soft pdfFailing 1 rfl (by decide)⟩

/-- C6: on any failure — transport error, non-200 status, malformed
response body, or content that fails to parse as JSON —
`extract_transactions_from_text` issues exactly one request (no retry),
returns the empty list without propagating an exception, and extending
the aggregate collection by that result leaves it unchanged. -/
theorem C6_failure_empty (cfg : Config) (responder : Request → ClientResponse)
    (textChunk : String)
    (h : isFailureResp (responder (mkRequest cfg textChunk)) = true) :
    (extract_transactions_from_text cfg responder textChunk).result = .arr []
      ∧ (extract_transactions_from_text cfg responder textChunk).requests = 1
      ∧ ∀ acc : List Json,
          pyExtend acc (extract_transactions_from_text cfg responder textChunk).result
            = some acc := by
  have hres : (extract_transactions_from_text cfg responder textChunk).result
      = Json.arr [] := by
    cases hr : responder (mkRequest cfg textChunk) with
    | transportError => simp [extract_transactions_from_text, hr]
    | reply s c =>
        rw [hr] at h
        cases c with
        | malformedBody =>
            by_cases hs : s = 200 <;> simp [extract_transactions_from_text, hr, hs]
        | notJson =>
            by_cases hs : s = 200 <;> simp [extract_transactions_from_text, hr, hs]
        | parsed v =>
            have hs : ¬s = 200 := by
              intro hc
              subst hc
              simp [isFailureResp] at h
            simp [extract_transactions_from_text, hr, hs]
  exact ⟨hres, rfl, fun acc => by simp [pyExtend, pyIterate, hres]⟩

/-- Witness for C6 at a transport-layer failure. -/
theorem C6_failure_empty_witness :
    isFailureResp (sampleResponder (mkRequest sampleCfg "page one text")) = true
      ∧ ((extract_transactions_from_text sampleCfg sampleResponder "page one text").result = .arr []
        ∧ (extract_transactions_from_text sampleCfg sampleResponder "page one text").requests = 1
        ∧ ∀ acc : List Json,
            pyExtend acc (extract_transactions_from_text sampleCfg sampleResponder "page one text").result
              = some acc) :=
  ⟨rfl, C6_failure_empty sampleCfg sampleResponder "page one text" rfl⟩

/-- C1 counterexample: with no API key in either the argument or the
environment and an existing PDF file, `main` does exit with code 1, but
only after the `pdf_path.exists()` check — a PDF access — has occurred,
contradicting the claim that exit happens before any access to the PDF
file including the existence check. -/
theorem C1_counterexample :
    (main none none true "llama3-70b-8192" samplePdf sampleResponder true).exitCode = 1
      ∧ Event.checkPdfExists
          ∈ (main none none true "llama3-70b-8192" samplePdf sampleResponder true).trace := by
  constructor
  · rfl
  · simp [main, truthy]

/-- C1 amended: when no API key is supplied via `--api-key` and
`GROQ_API_KEY` is falsy, `main` returns exit code 1, and before doing so
performs at most the PDF existence check and the environment read — in
particular it never opens the PDF, never calls the API, never sleeps and
never touches the output file. -/
theorem C1_exit_before_work (apiKeyArg envKey : Option String)
    (pdfExists : Bool) (modelArg : String) (pdf : PdfFile)
    (responder : Request → ClientResponse) (writeOk : Bool)
    (h1 : truthy apiKeyArg = false) (h2 : truthy envKey = false) :
    (main apiKeyArg envKey pdfExists modelArg pdf responder writeOk).exitCode = 1
      ∧ ∀ e ∈ (main apiKeyArg envKey pdfExists modelArg pdf responder writeOk).trace,
          e = Event.checkPdfExists ∨ e = Event.readEnvKey := by
  cases pdfExists <;> simp [main, h1, h2]

/-- Witness for the amended C1. -/
theorem C1_exit_before_work_witness :
    truthy none = false ∧ truthy none = false
      ∧ ((main none none true "llama3-70b-8192" samplePdf sampleResponder true).exitCode = 1
        ∧ ∀ e ∈ (main none none true "llama3-70b-8192" samplePdf sampleResponder true).trace,
            e = Event.checkPdfExists ∨ e = Event.readEnvKey) :=
  ⟨rfl, rfl,
    C1_exit_before_work none none true "llama3-70b-8192" samplePdf sampleResponder true rfl rfl⟩

/-- C10: a 200 response whose content is a JSON object (valid JSON, not an
array) is returned unchanged by `extract_transactions_from_text`;
`process_pdf`'s `extend` then appends the object's keys as bare strings to
the collection, the run succeeds, and the keys are written as the output —
no operation validates that elements are transaction records. -/
theorem C10_object_keys :
    (extract_transactions_from_text sampleCfg objResponder "page one text").result
        = .obj [("a", .num 1), ("b", .num 2)]
      ∧ pyExtend [] (.obj [("a", .num 1), ("b", .num 2)]) = some [.str "a", .str "b"]
      ∧ (process_pdf sampleCfg objResponder samplePdf true).effect
          = .wroteFull [.str "a", .str "b"]
      ∧ (process_pdf sampleCfg objResponder samplePdf true).retval = some true :=
  ⟨rfl, rfl, rfl, rfl⟩

/-- C2 counterexample: a successful run whose single 200 response parses
to an array holding an object without the documented fields writes that
object unchanged — nothing validates the `date`/`details`/`amount`
shape. -/
theorem C2_counterexample :
    (process_pdf sampleCfg badFieldResponder samplePdf true).retval = some true
      ∧ (process_pdf sampleCfg badFieldResponder samplePdf true).effect
          = .wroteFull [.obj [("foo", .num 1)]]
      ∧ isTxnRecord (.obj [("foo", .num 1)]) = false :=
  ⟨rfl, rfl, rfl⟩

/-- C2 amended: the written elements are drawn unchanged from the per-page
parsed responses, with no validation by the code; whenever every element
of every page's parsed array is a mapping with exactly the fields `date`
(string), `details` (string) and `amount` (number), every element of the
written output is such a mapping. -/
theorem C2_fields_propagate (cfg : Config)
    (responder : Request → ClientResponse) (pdf : PdfFile) (writeOk : Bool)
    (txs : List Json)
    (h : ∀ t ∈ extract_text_from_pdf pdf,
      ∃ xs, pageResult cfg responder t = Json.arr xs
        ∧ ∀ x ∈ xs, isTxnRecord x = true)
    (hw : (process_pdf cfg responder pdf writeOk).effect = .wroteFull txs) :
    ∀ x ∈ txs, isTxnRecord x = true := by
  have hsome : ∀ t ∈ extract_text_from_pdf pdf,
      (pyIterate (pageResult cfg responder t)).isSome = true := by
    intro t ht
    obtain ⟨xs, hxs, -⟩ := h t ht
    simp [hxs, pyIterate]
  rw [process_pdf_eq cfg responder pdf writeOk hsome] at hw
  split_ifs at hw with h1 h2 h3 <;> simp_all
  intro x hx
  rw [← hw] at hx
  simp only [pagesJoin, List.mem_flatten, List.mem_map] at hx
  obtain ⟨l, ⟨t, ht, hl⟩, hxl⟩ := hx
  obtain ⟨xs, hxs, hall⟩ := h t ht
  rw [← hl, hxs] at hxl
  simp only [pyIterate, Option.getD_some] at hxl
  exact hall x hxl

/-- Witness for the amended C2 on a one-page run with one well-formed
record. -/
theorem C2_fields_propagate_witness :
    (∀ t ∈ extract_text_from_pdf samplePdf,
      ∃ xs, pageResult sampleCfg goodResponder t = Json.arr xs
        ∧ ∀ x ∈ xs, isTxnRecord x = true)
      ∧ (process_pdf sampleCfg goodResponder samplePdf true).effect
          = .wroteFull [sampleTxn]
      ∧ ∀ x ∈ [sampleTxn], isTxnRecord x = true := by
  have h : ∀ t ∈ extract_text_from_pdf samplePdf,
      ∃ xs, pageResult sampleCfg goodResponder t = Json.arr xs
        ∧ ∀ x ∈ xs, isTxnRecord x = true := by
    intro t _
    refine ⟨[sampleTxn], rfl, ?_⟩
    intro x hx
    simp only [List.mem_singleton] at hx
    subst hx
    rfl
  exact ⟨h, rfl, C2_fields_propagate sampleCfg goodResponder samplePdf true [sampleTxn] h rfl⟩

/-- C3: for every successful run in which each page's client result is an
array, the written output is the flat, insertion-ordered concatenation of
the per-page arrays in page order — no deduplication, no reordering — and
its length is the sum of the per-page counts. -/
theorem C3_concat (cfg : Config) (responder : Request → ClientResponse)
    (pdf : PdfFile) (writeOk : Bool)
    (hArr : ∀ t ∈ extract_text_from_pdf pdf,
      ∃ xs, pageResult cfg responder t = Json.arr xs)
    (hOk : (process_pdf cfg responder pdf writeOk).retval = some true) :
    (process_pdf cfg responder pdf writeOk).effect
        = .wroteFull (((extract_text_from_pdf pdf).map
            fun t => arrElems (pageResult cfg responder t)).flatten)
      ∧ (((extract_text_from_pdf pdf).map
            fun t => arrElems (pageResult cfg responder t)).flatten).length
          = ((extract_text_from_pdf pdf).map
              fun t => (arrElems (pageResult cfg responder t)).length).sum := by
  have hsome : ∀ t ∈ extract_text_from_pdf pdf,
      (pyIterate (pageResult cfg responder t)).isSome = true := by
    intro t ht
    obtain ⟨xs, hxs⟩ := hArr t ht
    simp [hxs, pyIterate]
  have hjoin : pagesJoin cfg responder (extract_text_from_pdf pdf)
      = ((extract_text_from_pdf pdf).map
          fun t => arrElems (pageResult cfg responder t)).flatten := by
    unfold pagesJoin
    congr 1
    refine List.map_congr_left ?_
    intro t ht
    obtain ⟨xs, hxs⟩ := hArr t ht
    simp [hxs, pyIterate, arrElems]
  constructor
  · rw [process_pdf_eq cfg responder pdf writeOk hsome] at hOk ⊢
    split_ifs at hOk ⊢ with h1 h2 h3 <;> simp_all
  · simp [List.length_flatten, List.map_map, Function.comp_def]

/-- Witness for C3 on a one-page run. -/
theorem C3_concat_witness :
    (∀ t ∈ extract_text_from_pdf samplePdf,
      ∃ xs, pageResult sampleCfg goodResponder t = Json.arr xs)
      ∧ (process_pdf sampleCfg goodResponder samplePdf true).retval = some true
      ∧ ((process_pdf sampleCfg goodResponder samplePdf true).effect
          = .wroteFull (((extract_text_from_pdf samplePdf).map
              fun t => arrElems (pageResult sampleCfg goodResponder t)).flatten)
        ∧ (((extract_text_from_pdf samplePdf).map
              fun t => arrElems (pageResult sampleCfg goodResponder t)).flatten).length
            = ((extract_text_from_pdf samplePdf).map
                fun t => (arrElems (pageResult sampleCfg goodResponder t)).length).sum) :=
  ⟨fun _ _ => ⟨[sampleTxn], rfl⟩, rfl,
    C3_concat sampleCfg goodResponder samplePdf true
      (fun _ _ => ⟨[sampleTxn], rfl⟩) rfl⟩

/-- C5: when the extractor yields zero page texts, or the collection
accumulated over all pages is empty, `process_pdf` returns `False` and
the output file is neither created nor modified. -/
theorem C5_abort_untouched (cfg : Config)
    (responder : Request → ClientResponse) (pdf : PdfFile) (writeOk : Bool)
    (h : extract_text_from_pdf pdf = []
      ∨ ∃ tr, runPages cfg responder (extract_text_from_pdf pdf) 0 [] = (tr, some [])) :
    (process_pdf cfg responder pdf writeOk).retval = some false
      ∧ (process_pdf cfg responder pdf writeOk).effect = .untouched := by
  rcases h with h | ⟨tr, h⟩
  · simp [process_pdf, h]
  · by_cases he : (extract_text_from_pdf pdf).isEmpty
    · simp [process_pdf, he]
    · simp [process_pdf, he, h]

/-- Witness for C5: all pages answer with empty arrays, so the collection
is empty after the loop; the run fails and the file is untouched. -/
theorem C5_abort_untouched_witness :
    (extract_text_from_pdf samplePdf = []
      ∨ ∃ tr, runPages sampleCfg emptyResponder (extract_text_from_pdf samplePdf) 0 []
          = (tr, some []))
      ∧ ((process_pdf sampleCfg emptyResponder samplePdf true).retval = some false
        ∧ (process_pdf sampleCfg emptyResponder samplePdf true).effect = .untouched) :=
  ⟨Or.inr ⟨[.apiCall 0, .sleep rateLimitDelay], rfl⟩,
    C5_abort_untouched sampleCfg emptyResponder samplePdf true
      (Or.inr ⟨[.apiCall 0, .sleep rateLimitDelay], rfl⟩)⟩

/-- C7 counterexample: a one-page run whose 200 response parses to the
JSON number 5 — `list.extend(5)` raises an uncaught `TypeError` after the
page's API call and before its sleep, so a run with one extracted page
executes zero sleeps, not one. -/
theorem C7_counterexample :
    (extract_text_from_pdf samplePdf).length = 1
      ∧ countSleeps (process_pdf sampleCfg scalarResponder samplePdf true).trace = 0
      ∧ (process_pdf sampleCfg scalarResponder samplePdf true).retval = none :=
  ⟨rfl, rfl, rfl⟩

/-- C7 amended: provided every page's client result is iterable by
`list.extend` (an array, object or string — in particular whenever each
response is an array or any failure, which yields `[]`), a run over `n`
extracted pages executes exactly `n` sleeps, every sleep lasts the fixed
8 seconds, and the calls and sleeps alternate strictly — one sleep after
each page's API call, including after the last page, regardless of
whether that page's call succeeded or failed.  A page whose parsed
response is a non-iterable JSON scalar instead aborts the run with an
uncaught `TypeError` before that page's sleep. -/
theorem C7_sleep_per_page (cfg : Config)
    (responder : Request → ClientResponse) (pdf : PdfFile) (writeOk : Bool)
    (h : ∀ t ∈ extract_text_from_pdf pdf,
      (pyIterate (pageResult cfg responder t)).isSome = true) :
    countSleeps (process_pdf cfg responder pdf writeOk).trace
        = (extract_text_from_pdf pdf).length
      ∧ callsAndSleeps (process_pdf cfg responder pdf writeOk).trace
          = callTrace 0 (extract_text_from_pdf pdf).length
      ∧ ∀ s, Event.sleep s ∈ (process_pdf cfg responder pdf writeOk).trace
          → s = rateLimitDelay := by
  rw [process_pdf_eq cfg responder pdf writeOk h]
  have hct := countSleeps_callTrace 0 (extract_text_from_pdf pdf).length
  have hcs := callsAndSleeps_callTrace 0 (extract_text_from_pdf pdf).length
  split_ifs with h1 h2 h3
  · rw [List.isEmpty_iff] at h1
    refine ⟨by simp [h1, countSleeps], by simp [h1, callsAndSleeps, callTrace], ?_⟩
    intro s hs
    simp [h1] at hs
  · refine ⟨?_, ?_, ?_⟩
    · simpa [countSleeps, List.countP_cons] using hct
    · simpa [callsAndSleeps, List.filter_cons] using hcs
    · intro s hs
      simp only [List.mem_cons] at hs
      rcases hs with hs | hs
      · exact absurd hs (by simp)
      · exact sleep_mem_callTrace 0 _ s hs
  · refine ⟨?_, ?_, ?_⟩
    · simpa [countSleeps, List.countP_cons, List.countP_append] using hct
    · simpa [callsAndSleeps, List.filter_cons, List.filter_append] using hcs
    · intro s hs
      simp only [List.mem_cons, List.mem_append, List.mem_singleton] at hs
      rcases hs with (hs | hs) | hs
      · exact absurd hs (by simp)
      · exact sleep_mem_callTrace 0 _ s hs
      · exact absurd hs (by simp)

  · refine ⟨?_, ?_, ?_⟩
    · simpa [countSleeps, List.countP_cons, List.countP_append] using hct
    · simpa [callsAndSleeps, List.filter_cons, List.filter_append] using hcs
    · intro s hs
      simp only [List.mem_cons, List.mem_append, List.mem_singleton] at hs
      rcases hs with (hs | hs) | hs
      · exact absurd hs (by simp)
      · exact sleep_mem_callTrace 0 _ s hs
      · exact absurd hs (by simp)


/-- Witness for the amended C7 on a one-page run with an array response. -/
theorem C7_sleep_per_page_witness :
    (∀ t ∈ extract_text_from_pdf samplePdf,
      (pyIterate (pageResult sampleCfg goodResponder t)).isSome = true)
      ∧ (countSleeps (process_pdf sampleCfg goodResponder samplePdf true).trace
          = (extract_text_from_pdf samplePdf).length
        ∧ callsAndSleeps (process_pdf sampleCfg goodResponder samplePdf true).trace
            = callTrace 0 (extract_text_from_pdf samplePdf).length
        ∧ ∀ s, Event.sleep s ∈ (process_pdf sampleCfg goodResponder samplePdf true).trace
            → s = rateLimitDelay) :=
  ⟨fun _ _ => rfl,
    C7_sleep_per_page sampleCfg goodResponder samplePdf true (fun _ _ => rfl)⟩

/-- C9: the run is a pure function of the PDF content and the (temperature
0, deterministic) response function: two runs on the same input with
extensionally equal responders produce identical outcomes — in particular
identical written output, hence byte-identical serialized files. -/
theorem C9_deterministic (cfg : Config) (pdf : PdfFile) (writeOk : Bool)
    (r1 r2 : Request → ClientResponse) (h : ∀ q, r1 q = r2 q) :
    process_pdf cfg r1 pdf writeOk = process_pdf cfg r2 pdf writeOk := by
  have hr : r1 = r2 := funext h
  rw [hr]

/-- Witness for C9: two runs with the same deterministic responder. -/
theorem C9_deterministic_witness :
    (∀ q, goodResponder q = goodResponder q)
      ∧ process_pdf sampleCfg goodResponder samplePdf true
          = process_pdf sampleCfg goodResponder samplePdf true :=
  ⟨fun _ => rfl,
    C9_deterministic sampleCfg samplePdf true goodResponder goodResponder fun _ => rfl⟩

end PdfToJson
